import Mathlib

/-!
Shallow embedding of the `SportingClubService` data-access layer
(`sporting-club-app/src/lib/db.ts`) of the Frontend_SportsApp repository.

The service persists three record types (sports, members, subscriptions) in
IndexedDB object stores keyed by `id`, with secondary indexes:
  * `members`: unique index `by-email` on `email`;
  * `subscriptions`: unique index `by-member-sport` on `[memberId, sportId]`,
    non-unique indexes `by-member` and `by-sport`.

The embedding models the database as three lists (a keyed store is a list of
records whose keys are pairwise distinct in every reachable state) and each
public operation as a pure function `DBState → ... → Except DBError α × DBState`:
the second component is the store the caller observes after the call, which on
an error path is exactly the input store, because in the source every failure
(`throw` or an IndexedDB `ConstraintError`) occurs before or at the single
atomic write the operation performs.

`Date` timestamps are modelled as `Nat`; `crypto.randomUUID()` and `new Date()`
take their results as explicit parameters (`id`, `now`).

IndexedDB `add` rejects with `ConstraintError` when the primary key or a unique
index entry already exists; both map to `DBError.conflict`, as do the explicit
`throw new Error('Member is already subscribed to this sport')`.  The explicit
`throw new Error('... not found')` paths map to `DBError.notFound`.
-/

namespace SportingClub

inductive MemberStatus where
  | active
  | inactive
deriving Repr, DecidableEq

inductive SubStatus where
  | active
  | cancelled
deriving Repr, DecidableEq

/-- The `sports` store record type. -/
structure Sport where
  id : String
  name : String
  description : String
  category : String
  maxMembers : Option Nat
  createdAt : Nat
  updatedAt : Nat
deriving Repr, DecidableEq

/-- The `members` store record type. -/
structure Member where
  id : String
  firstName : String
  lastName : String
  email : String
  phone : String
  dateOfBirth : Nat
  address : String
  membershipDate : Nat
  status : MemberStatus
  createdAt : Nat
  updatedAt : Nat
deriving Repr, DecidableEq

/-- The `subscriptions` store record type. -/
structure Subscription where
  id : String
  memberId : String
  sportId : String
  subscriptionDate : Nat
  status : SubStatus
  createdAt : Nat
  updatedAt : Nat
deriving Repr, DecidableEq

/-- `Omit<Sport, 'id' | 'createdAt' | 'updatedAt'>`: the caller-supplied fields of `addSport`. -/
structure SportInput where
  name : String
  description : String
  category : String
  maxMembers : Option Nat
deriving Repr, DecidableEq

/-- `Omit<Member, 'id' | 'createdAt' | 'updatedAt'>`: the caller-supplied fields of `addMember`. -/
structure MemberInput where
  firstName : String
  lastName : String
  email : String
  phone : String
  dateOfBirth : Nat
  address : String
  membershipDate : Nat
  status : MemberStatus
deriving Repr, DecidableEq

/-- `Partial<Omit<Sport, 'id' | 'createdAt'>>` as passed to `updateSport`.
(The source spreads `updatedAt: new Date()` after the updates, so a caller-supplied
`updatedAt` is always overwritten and is not modelled.) -/
structure SportUpdate where
  name : Option String := none
  description : Option String := none
  category : Option String := none
  maxMembers : Option (Option Nat) := none
deriving Repr, DecidableEq

/-- `Partial<Omit<Member, 'id' | 'createdAt'>>` as passed to `updateMember`. -/
structure MemberUpdate where
  firstName : Option String := none
  lastName : Option String := none
  email : Option String := none
  phone : Option String := none
  dateOfBirth : Option Nat := none
  address : Option String := none
  membershipDate : Option Nat := none
  status : Option MemberStatus := none
deriving Repr, DecidableEq

/-- Error kinds raised by the service (spec §7): `notFound` for the
`'... not found'` throws, `conflict` for the explicit already-subscribed throw
and for IndexedDB `ConstraintError` (duplicate key / unique-index violation). -/
inductive DBError where
  | notFound
  | conflict
deriving Repr, DecidableEq

/-- The three object stores of `SportingClubDB`. -/
structure DBState where
  sports : List Sport
  members : List Member
  subscriptions : List Subscription
deriving Repr, DecidableEq

def emptyState : DBState := ⟨[], [], []⟩

/-! ### Read operations -/

/-- `getSport(id)`: point lookup by primary key. -/
def getSport (st : DBState) (id : String) : Option Sport :=
  st.sports.find? (fun s => s.id == id)

/-- `getAllSports()`. -/
def getAllSports (st : DBState) : List Sport :=
  st.sports

/-- `getMember(id)`. -/
def getMember (st : DBState) (id : String) : Option Member :=
  st.members.find? (fun m => m.id == id)

/-- `getAllMembers()`. -/
def getAllMembers (st : DBState) : List Member :=
  st.members

/-- `getSubscription(memberId, sportId)`: lookup on the unique
`by-member-sport` index (`undefined`/caught errors both surface as absence). -/
def getSubscription (st : DBState) (memberId sportId : String) : Option Subscription :=
  st.subscriptions.find? (fun sub => sub.memberId == memberId && sub.sportId == sportId)

/-- `getMemberSubscriptions(memberId)`: all rows, any status, on `by-member`. -/
def getMemberSubscriptions (st : DBState) (memberId : String) : List Subscription :=
  st.subscriptions.filter (fun sub => sub.memberId == memberId)

/-- `getSportSubscriptions(sportId)`: all rows, any status, on `by-sport`. -/
def getSportSubscriptions (st : DBState) (sportId : String) : List Subscription :=
  st.subscriptions.filter (fun sub => sub.sportId == sportId)

/-- `getAllSubscriptions()`. -/
def getAllSubscriptions (st : DBState) : List Subscription :=
  st.subscriptions

/-! ### Write operations -/

/-- `addSport(sport)`: fresh id and timestamps, `db.add('sports', ...)`.
The sports store has no unique secondary index, so `add` can only reject on a
primary-key collision. -/
def addSport (st : DBState) (input : SportInput) (id : String) (now : Nat) :
    Except DBError Sport × DBState :=
  let sportData : Sport :=
    { id := id, name := input.name, description := input.description,
      category := input.category, maxMembers := input.maxMembers,
      createdAt := now, updatedAt := now }
  if st.sports.any (fun s => s.id == id) then
    (Except.error DBError.conflict, st)
  else
    (Except.ok sportData, { st with sports := st.sports ++ [sportData] })

/-- `updateSport(id, updates)`: merge partial fields, bump `updatedAt`,
`db.put`; throws `'Sport not found'` when the id is absent. -/
def updateSport (st : DBState) (id : String) (u : SportUpdate) (now : Nat) :
    Except DBError Sport × DBState :=
  match getSport st id with
  | none => (Except.error DBError.notFound, st)
  | some sport =>
      let updatedSport : Sport :=
        { id := sport.id, name := u.name.getD sport.name,
          description := u.description.getD sport.description,
          category := u.category.getD sport.category,
          maxMembers := u.maxMembers.getD sport.maxMembers,
          createdAt := sport.createdAt, updatedAt := now }
      (Except.ok updatedSport,
        { st with sports := st.sports.map (fun s => if s.id == sport.id then updatedSport else s) })

/-- `deleteSport(id)`: `db.delete`, unconditional, never fails. -/
def deleteSport (st : DBState) (id : String) : Except DBError Unit × DBState :=
  (Except.ok (), { st with sports := st.sports.filter (fun s => !(s.id == id)) })

/-- `addMember(member)`: `db.add('members', ...)` rejects with
`ConstraintError` on a primary-key collision or when the unique `by-email`
index already holds the email. -/
def addMember (st : DBState) (input : MemberInput) (id : String) (now : Nat) :
    Except DBError Member × DBState :=
  let memberData : Member :=
    { id := id, firstName := input.firstName, lastName := input.lastName,
      email := input.email, phone := input.phone, dateOfBirth := input.dateOfBirth,
      address := input.address, membershipDate := input.membershipDate,
      status := input.status, createdAt := now, updatedAt := now }
  if st.members.any (fun m => m.id == id) then
    (Except.error DBError.conflict, st)
  else if st.members.any (fun m => m.email == input.email) then
    (Except.error DBError.conflict, st)
  else
    (Except.ok memberData, { st with members := st.members ++ [memberData] })

/-- `updateMember(id, updates)`: merge, bump `updatedAt`, `db.put`; the put
rejects when the (possibly changed) email collides with a different member's
entry in the unique `by-email` index. -/
def updateMember (st : DBState) (id : String) (u : MemberUpdate) (now : Nat) :
    Except DBError Member × DBState :=
  match getMember st id with
  | none => (Except.error DBError.notFound, st)
  | some member =>
      let updatedMember : Member :=
        { id := member.id, firstName := u.firstName.getD member.firstName,
          lastName := u.lastName.getD member.lastName,
          email := u.email.getD member.email, phone := u.phone.getD member.phone,
          dateOfBirth := u.dateOfBirth.getD member.dateOfBirth,
          address := u.address.getD member.address,
          membershipDate := u.membershipDate.getD member.membershipDate,
          status := u.status.getD member.status,
          createdAt := member.createdAt, updatedAt := now }
      if st.members.any (fun m => !(m.id == member.id) && m.email == updatedMember.email) then
        (Except.error DBError.conflict, st)
      else
        (Except.ok updatedMember,
          { st with members := st.members.map (fun m => if m.id == member.id then updatedMember else m) })

/-- `deleteMember(id)`: unconditional, never fails, no cascade to subscriptions. -/
def deleteMember (st : DBState) (id : String) : Except DBError Unit × DBState :=
  (Except.ok (), { st with members := st.members.filter (fun m => !(m.id == id)) })

/-- `db.add('subscriptions', sub)`: rejects with `ConstraintError` on a
primary-key collision or when the unique `by-member-sport` index already holds
the `(memberId, sportId)` pair — regardless of the existing row's status. -/
def subAdd (st : DBState) (sub : Subscription) : Except DBError Subscription × DBState :=
  if st.subscriptions.any (fun x => x.id == sub.id) then
    (Except.error DBError.conflict, st)
  else if st.subscriptions.any (fun x => x.memberId == sub.memberId && x.sportId == sub.sportId) then
    (Except.error DBError.conflict, st)
  else
    (Except.ok sub, { st with subscriptions := st.subscriptions ++ [sub] })

/-- `subscribeMemberToSport(memberId, sportId)`: throw Conflict when an
*active* row exists for the pair, then build a fresh row with
`status: 'active'`, `subscriptionDate = now` and `db.add` it. -/
def subscribeMemberToSport (st : DBState) (memberId sportId : String) (id : String) (now : Nat) :
    Except DBError Subscription × DBState :=
  let alreadyActive :=
    match getSubscription st memberId sportId with
    | some existing => existing.status == SubStatus.active
    | none => false
  if alreadyActive then
    (Except.error DBError.conflict, st)
  else
    subAdd st
      { id := id, memberId := memberId, sportId := sportId,
        subscriptionDate := now, status := SubStatus.active,
        createdAt := now, updatedAt := now }

/-- `cancelSubscription(memberId, sportId)`: throw `'Subscription not found'`
when the pair has no row; otherwise set `status: 'cancelled'`, bump
`updatedAt`, and `db.put` the row back in place (same primary key, same
index pair, so the put cannot violate a constraint). -/
def cancelSubscription (st : DBState) (memberId sportId : String) (now : Nat) :
    Except DBError Subscription × DBState :=
  match getSubscription st memberId sportId with
  | none => (Except.error DBError.notFound, st)
  | some subscription =>
      let updatedSubscription : Subscription :=
        { subscription with status := SubStatus.cancelled, updatedAt := now }
      (Except.ok updatedSubscription,
        { st with subscriptions :=
            st.subscriptions.map (fun x => if x.id == subscription.id then updatedSubscription else x) })

/-- `clearAllData()`: clears all three stores in one transaction. -/
def clearAllData (_st : DBState) : Except DBError Unit × DBState :=
  (Except.ok (), emptyState)

/-! ### Derived joined views -/

/-- Result shape of `getMemberWithSports`: the member's own fields spread with
the joined lists. -/
structure MemberWithSports where
  member : Member
  sports : List Sport
  subscriptions : List Subscription
deriving Repr, DecidableEq

/-- `getMemberWithSports(memberId)`: member plus the sports reachable through
its *active* subscriptions; `sports.filter(Boolean)` drops lookups of sports
that no longer exist. -/
def getMemberWithSports (st : DBState) (memberId : String) : Option MemberWithSports :=
  match getMember st memberId with
  | none => none
  | some member =>
      let subs := getMemberSubscriptions st memberId
      let activeSubs := subs.filter (fun sub => sub.status == SubStatus.active)
      let sports := activeSubs.filterMap (fun sub => getSport st sub.sportId)
      some { member := member, sports := sports, subscriptions := activeSubs }

/-- Result shape of `getSportWithMembers`. -/
structure SportWithMembers where
  sport : Sport
  members : List Member
  subscriptions : List Subscription
  memberCount : Nat
deriving Repr, DecidableEq

/-- `getSportWithMembers(sportId)`: sport plus the members reachable through
its *active* subscriptions; `members.filter(Boolean)` drops dangling member
references while `memberCount` is the count of active rows themselves. -/
def getSportWithMembers (st : DBState) (sportId : String) : Option SportWithMembers :=
  match getSport st sportId with
  | none => none
  | some sport =>
      let subs := getSportSubscriptions st sportId
      let activeSubs := subs.filter (fun sub => sub.status == SubStatus.active)
      some { sport := sport,
             members := activeSubs.filterMap (fun sub => getMember st sub.memberId),
             subscriptions := activeSubs,
             memberCount := activeSubs.length }

/-! ### The public API as a step relation -/

/-- One call to a public operation of the service, with the nondeterministic
inputs (`crypto.randomUUID()`, `new Date()`) made explicit. -/
inductive Op where
  | addSport (input : SportInput) (id : String) (now : Nat)
  | updateSport (id : String) (u : SportUpdate) (now : Nat)
  | deleteSport (id : String)
  | addMember (input : MemberInput) (id : String) (now : Nat)
  | updateMember (id : String) (u : MemberUpdate) (now : Nat)
  | deleteMember (id : String)
  | subscribeMemberToSport (memberId sportId id : String) (now : Nat)
  | cancelSubscription (memberId sportId : String) (now : Nat)
  | clearAllData
  | getSport (id : String)
  | getAllSports
  | getMember (id : String)
  | getAllMembers
  | getSubscription (memberId sportId : String)
  | getMemberSubscriptions (memberId : String)
  | getSportSubscriptions (sportId : String)
  | getAllSubscriptions
  | getMemberWithSports (memberId : String)
  | getSportWithMembers (sportId : String)
deriving Repr, DecidableEq

/-- Whether one public operation succeeds or fails (return value erased).
Read operations never fail (the store is modelled after `init()` resolved, so
`ensureDB` cannot throw). -/
def opResult (st : DBState) : Op → Except DBError Unit
  | .addSport input id now => (addSport st input id now).1.map (fun _ => ())
  | .updateSport id u now => (updateSport st id u now).1.map (fun _ => ())
  | .deleteSport id => (deleteSport st id).1
  | .addMember input id now => (addMember st input id now).1.map (fun _ => ())
  | .updateMember id u now => (updateMember st id u now).1.map (fun _ => ())
  | .deleteMember id => (deleteMember st id).1
  | .subscribeMemberToSport memberId sportId id now =>
      (subscribeMemberToSport st memberId sportId id now).1.map (fun _ => ())
  | .cancelSubscription memberId sportId now =>
      (cancelSubscription st memberId sportId now).1.map (fun _ => ())
  | .clearAllData => (clearAllData st).1
  | _ => Except.ok ()

/-- The store the caller observes after one public operation. -/
def opState (st : DBState) : Op → DBState
  | .addSport input id now => (addSport st input id now).2
  | .updateSport id u now => (updateSport st id u now).2
  | .deleteSport id => (deleteSport st id).2
  | .addMember input id now => (addMember st input id now).2
  | .updateMember id u now => (updateMember st id u now).2
  | .deleteMember id => (deleteMember st id).2
  | .subscribeMemberToSport memberId sportId id now =>
      (subscribeMemberToSport st memberId sportId id now).2
  | .cancelSubscription memberId sportId now =>
      (cancelSubscription st memberId sportId now).2
  | .clearAllData => (clearAllData st).2
  | _ => st

/-- The store reached from the freshly-created (empty) database by a sequence
of public operations. -/
def execOps (ops : List Op) : DBState :=
  ops.foldl opState emptyState

/-- The `(memberId, sportId)` pair a subscription row occupies in the unique
`by-member-sport` index. -/
def pairKey (sub : Subscription) : String × String :=
  (sub.memberId, sub.sportId)

/-- Invariant enforced by the unique `by-member-sport` index: no two rows of
the subscriptions store share a `(memberId, sportId)` pair. -/
def PairUnique (st : DBState) : Prop :=
  st.subscriptions.Pairwise (fun a b => pairKey a ≠ pairKey b)

/-! ### Concrete fixtures used by example-level theorems and witnesses -/

/-- A subscription row for the pair `("m1", "s1")` whose status is `cancelled`. -/
def subCancelled : Subscription :=
  { id := "sub1", memberId := "m1", sportId := "s1", subscriptionDate := 1,
    status := SubStatus.cancelled, createdAt := 1, updatedAt := 2 }

/-- A store holding exactly the cancelled row for `("m1", "s1")`. -/
def stWithCancelled : DBState :=
  { sports := [], members := [], subscriptions := [subCancelled] }

/-! ### Theorems -/

/-- C1: the spec says that when the only subscription row for
`(memberId, sportId)` has status `cancelled`, `subscribeMemberToSport` creates
a fresh `active` row.  In the code the status guard indeed lets the call
through, but the `db.add` then violates the unique `by-member-sport` index
(declared on the pair regardless of status) and rejects with
`ConstraintError`: starting from a store whose only row for `("m1", "s1")` is
cancelled, the call fails with a Conflict and writes nothing. -/
theorem subscribe_after_cancel_rejected_by_unique_index :
    subscribeMemberToSport stWithCancelled "m1" "s1" "sub2" 5 =
      (Except.error DBError.conflict, stWithCancelled) := by
  rfl

/-- C6: `deleteSport` succeeds unconditionally, afterwards `getSport(id)` is
absent, and the members and subscriptions stores are untouched (including
rows whose `sportId` references the deleted sport). -/
theorem deleteSport_removes_and_preserves_subs (st : DBState) (id : String) :
    (deleteSport st id).1 = Except.ok () ∧
    getSport (deleteSport st id).2 id = none ∧
    (deleteSport st id).2.subscriptions = st.subscriptions ∧
    (deleteSport st id).2.members = st.members := by
  refine ⟨rfl, ?_, rfl, rfl⟩
  simp [getSport, deleteSport]

/-- C8: when no subscription row exists for the pair, `cancelSubscription`
throws `'Subscription not found'` and leaves the store exactly as it was. -/
theorem cancelSubscription_absent_notFound (st : DBState) (m s : String) (now : Nat)
    (h : getSubscription st m s = none) :
    cancelSubscription st m s now = (Except.error DBError.notFound, st) := by
  unfold cancelSubscription
  rw [h]

/-- Witness for C8 at a concrete store with no row for the pair. -/
theorem cancelSubscription_absent_notFound_witness :
    cancelSubscription emptyState "m1" "s1" 7 = (Except.error DBError.notFound, emptyState) :=
  cancelSubscription_absent_notFound emptyState "m1" "s1" 7 rfl

/-- C9: when the row for the pair is already `cancelled`, `cancelSubscription`
succeeds (no NotFound, no Conflict): it returns the row with status
`cancelled`, `updatedAt` bumped to now and every other field unchanged, so
re-cancelling is permitted and leaves the status field where it was. -/
theorem cancelSubscription_recancel_ok (st : DBState) (m s : String) (sub : Subscription) (now : Nat)
    (hfind : getSubscription st m s = some sub)
    (hcan : sub.status = SubStatus.cancelled) :
    (cancelSubscription st m s now).1 =
      Except.ok { sub with status := SubStatus.cancelled, updatedAt := now } ∧
    ({ sub with status := SubStatus.cancelled, updatedAt := now } : Subscription).status
      = sub.status := by
  unfold cancelSubscription
  rw [hfind]
  exact ⟨rfl, by rw [hcan]⟩

/-- Witness for C9 at the concrete store holding one cancelled row. -/
theorem cancelSubscription_recancel_ok_witness :
    (cancelSubscription stWithCancelled "m1" "s1" 9).1 =
      Except.ok { subCancelled with status := SubStatus.cancelled, updatedAt := 9 } ∧
    ({ subCancelled with status := SubStatus.cancelled, updatedAt := 9 } : Subscription).status
      = subCancelled.status :=
  cancelSubscription_recancel_ok stWithCancelled "m1" "s1" subCancelled 9 rfl rfl

/-- Successful `addSport` characterized: the returned record is the input
fields plus the assigned id and timestamps, the store gains exactly that
record, and no prior sport held the id. -/
theorem addSport_ok_elim (st : DBState) (input : SportInput) (id : String) (now : Nat)
    (s1 : Sport) (st1 : DBState)
    (h : addSport st input id now = (Except.ok s1, st1)) :
    s1 = { id := id, name := input.name, description := input.description,
           category := input.category, maxMembers := input.maxMembers,
           createdAt := now, updatedAt := now } ∧
    st1 = { st with sports := st.sports ++ [s1] } ∧
    st.sports.any (fun s => s.id == id) = false := by
  unfold addSport at h
  by_cases hc : st.sports.any (fun s => s.id == id) = true
  · rw [if_pos hc] at h
    exact absurd h (by simp)
  · rw [if_neg hc] at h
    rw [Prod.mk.injEq] at h
    obtain ⟨h1, h2⟩ := h
    injection h1 with h1
    subst h1
    subst h2
    exact ⟨rfl, rfl, by simpa using hc⟩

/-- Successful `addMember` characterized analogously, including that neither
the id nor (via the unique `by-email` index) the email was present before. -/
theorem addMember_ok_elim (st : DBState) (input : MemberInput) (id : String) (now : Nat)
    (m1 : Member) (st1 : DBState)
    (h : addMember st input id now = (Except.ok m1, st1)) :
    m1 = { id := id, firstName := input.firstName, lastName := input.lastName,
           email := input.email, phone := input.phone, dateOfBirth := input.dateOfBirth,
           address := input.address, membershipDate := input.membershipDate,
           status := input.status, createdAt := now, updatedAt := now } ∧
    st1 = { st with members := st.members ++ [m1] } ∧
    st.members.any (fun m => m.id == id) = false ∧
    st.members.any (fun m => m.email == input.email) = false := by
  unfold addMember at h
  by_cases hc : st.members.any (fun m => m.id == id) = true
  · rw [if_pos hc] at h
    exact absurd h (by simp)
  · rw [if_neg hc] at h
    by_cases hc2 : st.members.any (fun m => m.email == input.email) = true
    · rw [if_pos hc2] at h
      exact absurd h (by simp)
    · rw [if_neg hc2] at h
      rw [Prod.mk.injEq] at h
      obtain ⟨h1, h2⟩ := h
      injection h1 with h1
      subst h1
      subst h2
      exact ⟨rfl, rfl, by simpa using hc, by simpa using hc2⟩

/-- C5: for every valid input, `addSport` (resp. `addMember`) followed by
`getSport` (resp. `getMember`) on the returned id yields a record equal to the
input fields plus the assigned id and `createdAt`/`updatedAt` timestamps. -/
theorem add_then_get_roundtrip (st : DBState) (si : SportInput) (mi : MemberInput)
    (ids idm : String) (ts tm : Nat) (s1 : Sport) (stS : DBState) (m1 : Member) (stM : DBState)
    (hs : addSport st si ids ts = (Except.ok s1, stS))
    (hm : addMember st mi idm tm = (Except.ok m1, stM)) :
    getSport stS ids = some s1 ∧
    s1.id = ids ∧ s1.name = si.name ∧ s1.description = si.description ∧
    s1.category = si.category ∧ s1.maxMembers = si.maxMembers ∧
    s1.createdAt = ts ∧ s1.updatedAt = ts ∧
    getMember stM idm = some m1 ∧
    m1.id = idm ∧ m1.firstName = mi.firstName ∧ m1.lastName = mi.lastName ∧
    m1.email = mi.email ∧ m1.phone = mi.phone ∧ m1.dateOfBirth = mi.dateOfBirth ∧
    m1.address = mi.address ∧ m1.membershipDate = mi.membershipDate ∧
    m1.status = mi.status ∧ m1.createdAt = tm ∧ m1.updatedAt = tm := by
  obtain ⟨rfl, rfl, hids⟩ := addSport_ok_elim st si ids ts s1 stS hs
  obtain ⟨rfl, rfl, hidm, _⟩ := addMember_ok_elim st mi idm tm m1 stM hm
  have hnoneS : st.sports.find? (fun s => s.id == ids) = none :=
    List.find?_eq_none.2 (fun x hx => (List.any_eq_false.1 hids) x hx)
  have hnoneM : st.members.find? (fun m => m.id == idm) = none :=
    List.find?_eq_none.2 (fun x hx => (List.any_eq_false.1 hidm) x hx)
  refine ⟨?_, rfl, rfl, rfl, rfl, rfl, rfl, rfl, ?_,
    rfl, rfl, rfl, rfl, rfl, rfl, rfl, rfl, rfl, rfl, rfl⟩
  · simp [getSport, hnoneS]
  · simp [getMember, hnoneM]

/-- A concrete valid sport input. -/
def sportInputEx : SportInput :=
  { name := "Football", description := "Association football", category := "Team Sports",
    maxMembers := none }

/-- A concrete valid member input. -/
def memberInputEx : MemberInput :=
  { firstName := "Ada", lastName := "Lively", email := "ada@club.test", phone := "555",
    dateOfBirth := 0, address := "1 Club Road", membershipDate := 3,
    status := MemberStatus.active }

/-- The sport record `addSport emptyState sportInputEx "sp1" 10` stores. -/
def sportEx : Sport :=
  { id := "sp1", name := "Football", description := "Association football",
    category := "Team Sports", maxMembers := none, createdAt := 10, updatedAt := 10 }

/-- The member record `addMember emptyState memberInputEx "mem1" 11` stores. -/
def memberEx : Member :=
  { id := "mem1", firstName := "Ada", lastName := "Lively", email := "ada@club.test",
    phone := "555", dateOfBirth := 0, address := "1 Club Road", membershipDate := 3,
    status := MemberStatus.active, createdAt := 11, updatedAt := 11 }

/-- Witness for C5 at concrete inputs added to the empty store. -/
theorem add_then_get_roundtrip_witness :
    getSport ⟨[sportEx], [], []⟩ "sp1" = some sportEx ∧
    sportEx.id = "sp1" ∧ sportEx.name = sportInputEx.name ∧
    sportEx.description = sportInputEx.description ∧
    sportEx.category = sportInputEx.category ∧ sportEx.maxMembers = sportInputEx.maxMembers ∧
    sportEx.createdAt = 10 ∧ sportEx.updatedAt = 10 ∧
    getMember ⟨[], [memberEx], []⟩ "mem1" = some memberEx ∧
    memberEx.id = "mem1" ∧ memberEx.firstName = memberInputEx.firstName ∧
    memberEx.lastName = memberInputEx.lastName ∧
    memberEx.email = memberInputEx.email ∧ memberEx.phone = memberInputEx.phone ∧
    memberEx.dateOfBirth = memberInputEx.dateOfBirth ∧
    memberEx.address = memberInputEx.address ∧
    memberEx.membershipDate = memberInputEx.membershipDate ∧
    memberEx.status = memberInputEx.status ∧
    memberEx.createdAt = 11 ∧ memberEx.updatedAt = 11 :=
  add_then_get_roundtrip emptyState sportInputEx memberInputEx "sp1" "mem1" 10 11
    sportEx ⟨[sportEx], [], []⟩ memberEx ⟨[], [memberEx], []⟩ rfl rfl

/-- C3: after a member is successfully added, a second `addMember` carrying the
same email fails with Conflict (the unique `by-email` index rejects the insert;
an id collision would equally reject it), writes nothing, and the first member
remains retrievable unchanged via `getMember` and `getAllMembers`. -/
theorem addMember_duplicate_email_conflict (st : DBState) (i1 i2 : MemberInput)
    (id1 id2 : String) (t1 t2 : Nat) (m1 : Member) (st1 : DBState)
    (hemail : i2.email = i1.email)
    (h1 : addMember st i1 id1 t1 = (Except.ok m1, st1)) :
    (addMember st1 i2 id2 t2).1 = Except.error DBError.conflict ∧
    (addMember st1 i2 id2 t2).2 = st1 ∧
    getMember st1 id1 = some m1 ∧
    m1 ∈ getAllMembers st1 := by
  obtain ⟨hm1, hst1, hid, _⟩ := addMember_ok_elim st i1 id1 t1 m1 st1 h1
  have hmem : m1 ∈ st1.members := by rw [hst1]; simp
  have hm1email : m1.email = i1.email := by rw [hm1]
  have hm1id : m1.id = id1 := by rw [hm1]
  have hemany : st1.members.any (fun m => m.email == i2.email) = true := by
    refine List.any_eq_true.2 ⟨m1, hmem, ?_⟩
    simp [hm1email, hemail]
  have hnone : st.members.find? (fun m => m.id == id1) = none :=
    List.find?_eq_none.2 (fun x hx => (List.any_eq_false.1 hid) x hx)
  have hcall : addMember st1 i2 id2 t2 = (Except.error DBError.conflict, st1) := by
    unfold addMember
    by_cases hc : st1.members.any (fun m => m.id == id2) = true
    · rw [if_pos hc]
    · rw [if_neg hc, if_pos hemany]
  have hget : getMember st1 id1 = some m1 := by
    rw [hst1]
    simp [getMember, hnone, hm1id]
  exact ⟨by rw [hcall], by rw [hcall], hget, by simpa [getAllMembers] using hmem⟩

/-- Witness for C3: the same input (hence the same email) added twice on top of
the empty store. -/
theorem addMember_duplicate_email_conflict_witness :
    (addMember ⟨[], [memberEx], []⟩ memberInputEx "mem2" 12).1 = Except.error DBError.conflict ∧
    (addMember ⟨[], [memberEx], []⟩ memberInputEx "mem2" 12).2 = ⟨[], [memberEx], []⟩ ∧
    getMember ⟨[], [memberEx], []⟩ "mem1" = some memberEx ∧
    memberEx ∈ getAllMembers ⟨[], [memberEx], []⟩ :=
  addMember_duplicate_email_conflict emptyState memberInputEx memberInputEx "mem1" "mem2" 11 12
    memberEx ⟨[], [memberEx], []⟩ rfl rfl

/-- `addSport` either succeeds or leaves the store untouched. -/
theorem addSport_ok_or_frame (st : DBState) (input : SportInput) (id : String) (now : Nat) :
    (∃ v, (addSport st input id now).1 = Except.ok v) ∨ (addSport st input id now).2 = st := by
  unfold addSport
  dsimp only
  repeat' split
  all_goals first
  | exact Or.inr rfl
  | exact Or.inl ⟨_, rfl⟩

/-- `updateSport` either succeeds or leaves the store untouched. -/
theorem updateSport_ok_or_frame (st : DBState) (id : String) (u : SportUpdate) (now : Nat) :
    (∃ v, (updateSport st id u now).1 = Except.ok v) ∨ (updateSport st id u now).2 = st := by
  unfold updateSport
  dsimp only
  repeat' split
  all_goals first
  | exact Or.inr rfl
  | exact Or.inl ⟨_, rfl⟩

/-- `addMember` either succeeds or leaves the store untouched. -/
theorem addMember_ok_or_frame (st : DBState) (input : MemberInput) (id : String) (now : Nat) :
    (∃ v, (addMember st input id now).1 = Except.ok v) ∨ (addMember st input id now).2 = st := by
  unfold addMember
  dsimp only
  repeat' split
  all_goals first
  | exact Or.inr rfl
  | exact Or.inl ⟨_, rfl⟩

/-- `updateMember` either succeeds or leaves the store untouched. -/
theorem updateMember_ok_or_frame (st : DBState) (id : String) (u : MemberUpdate) (now : Nat) :
    (∃ v, (updateMember st id u now).1 = Except.ok v) ∨ (updateMember st id u now).2 = st := by
  unfold updateMember
  dsimp only
  repeat' split
  all_goals first
  | exact Or.inr rfl
  | exact Or.inl ⟨_, rfl⟩

/-- `subscribeMemberToSport` either succeeds or leaves the store untouched. -/
theorem subscribe_ok_or_frame (st : DBState) (m s id : String) (now : Nat) :
    (∃ v, (subscribeMemberToSport st m s id now).1 = Except.ok v) ∨
    (subscribeMemberToSport st m s id now).2 = st := by
  unfold subscribeMemberToSport subAdd
  dsimp only
  repeat' split
  all_goals first
  | exact Or.inr rfl
  | exact Or.inl ⟨_, rfl⟩

/-- `cancelSubscription` either succeeds or leaves the store untouched. -/
theorem cancel_ok_or_frame (st : DBState) (m s : String) (now : Nat) :
    (∃ v, (cancelSubscription st m s now).1 = Except.ok v) ∨
    (cancelSubscription st m s now).2 = st := by
  unfold cancelSubscription
  dsimp only
  repeat' split
  all_goals first
  | exact Or.inr rfl
  | exact Or.inl ⟨_, rfl⟩

/-- C4: for every public operation and every starting store, a failed call
leaves the sports, members and subscriptions collections exactly as they were:
in the source every `throw` and every `ConstraintError` occurs before or at
the single atomic IndexedDB write of the operation. -/
theorem failed_op_leaves_state (st : DBState) (op : Op) (e : DBError)
    (h : opResult st op = Except.error e) : opState st op = st := by
  cases op with
  | addSport input id now =>
      rcases addSport_ok_or_frame st input id now with ⟨v, hv⟩ | hfr
      · simp [opResult, hv, Except.map] at h
      · simpa only [opState] using hfr
  | updateSport id u now =>
      rcases updateSport_ok_or_frame st id u now with ⟨v, hv⟩ | hfr
      · simp [opResult, hv, Except.map] at h
      · simpa only [opState] using hfr
  | deleteSport id => simp [opResult, deleteSport] at h
  | addMember input id now =>
      rcases addMember_ok_or_frame st input id now with ⟨v, hv⟩ | hfr
      · simp [opResult, hv, Except.map] at h
      · simpa only [opState] using hfr
  | updateMember id u now =>
      rcases updateMember_ok_or_frame st id u now with ⟨v, hv⟩ | hfr
      · simp [opResult, hv, Except.map] at h
      · simpa only [opState] using hfr
  | deleteMember id => simp [opResult, deleteMember] at h
  | subscribeMemberToSport m s id now =>
      rcases subscribe_ok_or_frame st m s id now with ⟨v, hv⟩ | hfr
      · simp [opResult, hv, Except.map] at h
      · simpa only [opState] using hfr
  | cancelSubscription m s now =>
      rcases cancel_ok_or_frame st m s now with ⟨v, hv⟩ | hfr
      · simp [opResult, hv, Except.map] at h
      · simpa only [opState] using hfr
  | clearAllData => simp [opResult, clearAllData] at h
  | getSport id => simp [opResult] at h
  | getAllSports => simp [opResult] at h
  | getMember id => simp [opResult] at h
  | getAllMembers => simp [opResult] at h
  | getSubscription m s => simp [opResult] at h
  | getMemberSubscriptions m => simp [opResult] at h
  | getSportSubscriptions s => simp [opResult] at h
  | getAllSubscriptions => simp [opResult] at h
  | getMemberWithSports m => simp [opResult] at h
  | getSportWithMembers s => simp [opResult] at h

/-- Witness for C4: cancelling an absent pair on the empty store fails with
NotFound and leaves the store empty. -/
theorem failed_op_leaves_state_witness :
    opState emptyState (Op.cancelSubscription "m1" "s1" 3) = emptyState :=
  failed_op_leaves_state emptyState (Op.cancelSubscription "m1" "s1" 3) DBError.notFound rfl

/-- The record `subscribeMemberToSport` builds before `db.add`. -/
def freshSub (memberId sportId id : String) (now : Nat) : Subscription :=
  { id := id, memberId := memberId, sportId := sportId, subscriptionDate := now,
    status := SubStatus.active, createdAt := now, updatedAt := now }

/-- Successful `subAdd` characterized: the row is appended and neither its key
nor its `(memberId, sportId)` pair was present before. -/
theorem subAdd_ok_elim (st : DBState) (sub r : Subscription) (st1 : DBState)
    (h : subAdd st sub = (Except.ok r, st1)) :
    r = sub ∧ st1 = { st with subscriptions := st.subscriptions ++ [sub] } ∧
    st.subscriptions.any (fun x => x.id == sub.id) = false ∧
    st.subscriptions.any
      (fun x => x.memberId == sub.memberId && x.sportId == sub.sportId) = false := by
  unfold subAdd at h
  by_cases hc : st.subscriptions.any (fun x => x.id == sub.id) = true
  · rw [if_pos hc] at h
    exact absurd h (by simp)
  · rw [if_neg hc] at h
    by_cases hc2 : st.subscriptions.any
        (fun x => x.memberId == sub.memberId && x.sportId == sub.sportId) = true
    · rw [if_pos hc2] at h
      exact absurd h (by simp)
    · rw [if_neg hc2] at h
      rw [Prod.mk.injEq] at h
      obtain ⟨h1, h2⟩ := h
      injection h1 with h1
      exact ⟨h1.symm, h2.symm, by simpa using hc, by simpa using hc2⟩

/-- Successful `subscribeMemberToSport` characterized: the stored row is
`freshSub`, it is appended, and no row for the pair existed before (an
*active* one would have tripped the guard, a *cancelled* one the unique
index inside `db.add`). -/
theorem subscribe_ok_elim (st : DBState) (m s id : String) (now : Nat)
    (r : Subscription) (st1 : DBState)
    (h : subscribeMemberToSport st m s id now = (Except.ok r, st1)) :
    r = freshSub m s id now ∧
    st1 = { st with subscriptions := st.subscriptions ++ [r] } ∧
    st.subscriptions.any (fun x => x.id == id) = false ∧
    st.subscriptions.any (fun x => x.memberId == m && x.sportId == s) = false := by
  unfold subscribeMemberToSport at h
  cases hg : getSubscription st m s with
  | none =>
      rw [hg] at h
      obtain ⟨h1, h2, hid, hpair⟩ := subAdd_ok_elim st _ r st1 h
      exact ⟨h1, by rw [h2, h1], by simpa using hid, by simpa using hpair⟩
  | some ex =>
      rw [hg] at h
      dsimp only at h
      rcases Bool.eq_false_or_eq_true (ex.status == SubStatus.active) with hb | hb
      · rw [hb, if_pos rfl] at h
        exact absurd h (by simp)
      · rw [hb, if_neg (by simp)] at h
        obtain ⟨h1, h2, hid, hpair⟩ := subAdd_ok_elim st _ r st1 h
        have hexmem := List.mem_of_find?_eq_some hg
        have hexpred := List.find?_some hg
        have hpf : st.subscriptions.any
            (fun x => x.memberId == m && x.sportId == s) = false := by simpa using hpair
        exact absurd hexpred (List.any_eq_false.1 hpf ex hexmem)

/-- Successful `cancelSubscription` computed: the found row is rewritten in
place with status `cancelled` and a bumped `updatedAt`. -/
theorem cancelSubscription_ok_elim (st : DBState) (m s : String) (sub : Subscription) (now : Nat)
    (hfind : getSubscription st m s = some sub) :
    cancelSubscription st m s now =
      (Except.ok { sub with status := SubStatus.cancelled, updatedAt := now },
       { st with subscriptions := st.subscriptions.map (fun x =>
           if x.id == sub.id then { sub with status := SubStatus.cancelled, updatedAt := now }
           else x) }) := by
  unfold cancelSubscription
  rw [hfind]

/-- The structural invariants the subscriptions store's keyPath and unique
`by-member-sport` index maintain: primary keys pairwise distinct and
`(memberId, sportId)` pairs pairwise distinct. -/
def SubsOk (st : DBState) : Prop :=
  st.subscriptions.Pairwise (fun a b => a.id ≠ b.id) ∧
  st.subscriptions.Pairwise (fun a b => pairKey a ≠ pairKey b)

/-- Appending a row whose key and pair are fresh preserves `SubsOk`. -/
theorem subsOk_append (st : DBState) (sub : Subscription) (h : SubsOk st)
    (hid : st.subscriptions.any (fun x => x.id == sub.id) = false)
    (hpf : st.subscriptions.any
      (fun x => x.memberId == sub.memberId && x.sportId == sub.sportId) = false) :
    SubsOk { st with subscriptions := st.subscriptions ++ [sub] } := by
  obtain ⟨hI, hP⟩ := h
  constructor
  · refine List.pairwise_append.2 ⟨hI, List.pairwise_singleton _ _, ?_⟩
    intro a ha b hb
    rw [List.mem_singleton] at hb
    subst hb
    intro hcontra
    exact absurd (by simp [hcontra]) (List.any_eq_false.1 hid a ha)
  · refine List.pairwise_append.2 ⟨hP, List.pairwise_singleton _ _, ?_⟩
    intro a ha b hb
    rw [List.mem_singleton] at hb
    rw [hb]
    intro hcontra
    have h1 : a.memberId = sub.memberId := congrArg Prod.fst hcontra
    have h2 : a.sportId = sub.sportId := congrArg Prod.snd hcontra
    exact absurd (by simp [h1, h2]) (List.any_eq_false.1 hpf a ha)

/-- The in-place rewrite `cancelSubscription` performs (replace the row whose
key matches) preserves `SubsOk`: by key-uniqueness the only row it touches is
the found one, whose key and pair it keeps. -/
theorem subsOk_cancel_map (st : DBState) (sub : Subscription) (now : Nat)
    (h : SubsOk st) (hmem : sub ∈ st.subscriptions) :
    SubsOk { st with subscriptions := st.subscriptions.map (fun x =>
        if x.id == sub.id then { sub with status := SubStatus.cancelled, updatedAt := now }
        else x) } := by
  obtain ⟨hI, hP⟩ := h
  have hIsymm : Symmetric (fun a b : Subscription => a.id ≠ b.id) :=
    fun a b hab => fun e => hab e.symm
  have hfix : ∀ x ∈ st.subscriptions,
      ((if x.id == sub.id then { sub with status := SubStatus.cancelled, updatedAt := now }
        else x) : Subscription).id = x.id ∧
      pairKey (if x.id == sub.id then { sub with status := SubStatus.cancelled, updatedAt := now }
        else x) = pairKey x := by
    intro x hx
    by_cases hid : (x.id == sub.id) = true
    · have hxeq : x = sub := by
        by_contra hne
        exact (hI.forall hIsymm hx hmem hne) (by simpa using hid)
      subst hxeq
      rw [if_pos hid]
      exact ⟨rfl, rfl⟩
    · rw [if_neg hid]
      exact ⟨rfl, rfl⟩
  constructor
  · dsimp only
    rw [List.pairwise_map]
    refine hI.imp_of_mem ?_
    intro a b ha hb hab
    rw [(hfix a ha).1, (hfix b hb).1]
    exact hab
  · dsimp only
    rw [List.pairwise_map]
    refine hP.imp_of_mem ?_
    intro a b ha hb hab
    rw [(hfix a ha).2, (hfix b hb).2]
    exact hab

/-- Every public operation preserves the subscriptions-store invariants. -/
theorem opState_preserves_subsOk (st : DBState) (op : Op) (h : SubsOk st) :
    SubsOk (opState st op) := by
  cases op with
  | addSport input id now =>
      have hs : (addSport st input id now).2.subscriptions = st.subscriptions := by
        unfold addSport
        dsimp only
        split <;> rfl
      unfold SubsOk at h ⊢
      simp only [opState, hs]
      exact h
  | updateSport id u now =>
      have hs : (updateSport st id u now).2.subscriptions = st.subscriptions := by
        unfold updateSport
        dsimp only
        split <;> rfl
      unfold SubsOk at h ⊢
      simp only [opState, hs]
      exact h
  | deleteSport id =>
      unfold SubsOk at h ⊢
      simp only [opState]
      exact h
  | addMember input id now =>
      have hs : (addMember st input id now).2.subscriptions = st.subscriptions := by
        unfold addMember
        dsimp only
        repeat' split
        all_goals rfl
      unfold SubsOk at h ⊢
      simp only [opState, hs]
      exact h
  | updateMember id u now =>
      have hs : (updateMember st id u now).2.subscriptions = st.subscriptions := by
        unfold updateMember
        dsimp only
        repeat' split
        all_goals rfl
      unfold SubsOk at h ⊢
      simp only [opState, hs]
      exact h
  | deleteMember id =>
      unfold SubsOk at h ⊢
      simp only [opState]
      exact h
  | subscribeMemberToSport m s id now =>
      simp only [opState]
      rcases subscribe_ok_or_frame st m s id now with ⟨v, hv⟩ | hfr
      · have heq : subscribeMemberToSport st m s id now
            = (Except.ok v, (subscribeMemberToSport st m s id now).2) :=
          Prod.ext_iff.2 ⟨hv, rfl⟩
        obtain ⟨hrec, hst2, hid, hpf⟩ := subscribe_ok_elim st m s id now v _ heq
        rw [hst2]
        refine subsOk_append st v h ?_ ?_
        · rw [hrec]
          simpa using hid
        · rw [hrec]
          simpa using hpf
      · rw [hfr]
        exact h
  | cancelSubscription m s now =>
      simp only [opState]
      cases hg : getSubscription st m s with
      | none =>
          have hcall : cancelSubscription st m s now = (Except.error DBError.notFound, st) := by
            unfold cancelSubscription
            rw [hg]
          rw [hcall]
          exact h
      | some sub =>
          rw [cancelSubscription_ok_elim st m s sub now hg]
          exact subsOk_cancel_map st sub now h (List.mem_of_find?_eq_some hg)
  | clearAllData =>
      exact ⟨List.Pairwise.nil, List.Pairwise.nil⟩
  | getSport id => simpa only [opState] using h
  | getAllSports => simpa only [opState] using h
  | getMember id => simpa only [opState] using h
  | getAllMembers => simpa only [opState] using h
  | getSubscription m s => simpa only [opState] using h
  | getMemberSubscriptions m => simpa only [opState] using h
  | getSportSubscriptions s => simpa only [opState] using h
  | getAllSubscriptions => simpa only [opState] using h
  | getMemberWithSports m => simpa only [opState] using h
  | getSportWithMembers s => simpa only [opState] using h

/-- Every store reachable from the fresh database satisfies the
subscriptions-store invariants. -/
theorem execOps_subsOk (ops : List Op) : SubsOk (execOps ops) := by
  unfold execOps
  suffices hgen : ∀ st, SubsOk st → SubsOk (ops.foldl opState st) from
    hgen emptyState ⟨List.Pairwise.nil, List.Pairwise.nil⟩
  induction ops with
  | nil => exact fun st hst => hst
  | cons op ops ih =>
      intro st hst
      rw [List.foldl_cons]
      exact ih _ (opState_preserves_subsOk st op hst)

/-- C2: starting from a store with no subscription row for `(m, s)` (and a
fresh id for the first insert), the first `subscribeMemberToSport` succeeds;
calling it again immediately fails with Conflict and leaves the store as the
first call left it, in which exactly one active row for `(m, s)` exists.
More generally, in every store reachable from the fresh database by public
operations, no two subscription rows have the same `(memberId, sportId)` pair
with both statuses `active`. -/
theorem subscribe_twice_conflict_and_unique :
    (∀ st m s id1 id2 t1 t2,
      getSubscription st m s = none →
      st.subscriptions.any (fun x => x.id == id1) = false →
      subscribeMemberToSport st m s id1 t1 =
        (Except.ok (freshSub m s id1 t1),
         { st with subscriptions := st.subscriptions ++ [freshSub m s id1 t1] }) ∧
      subscribeMemberToSport
          { st with subscriptions := st.subscriptions ++ [freshSub m s id1 t1] } m s id2 t2 =
        (Except.error DBError.conflict,
         { st with subscriptions := st.subscriptions ++ [freshSub m s id1 t1] }) ∧
      (({ st with subscriptions := st.subscriptions ++ [freshSub m s id1 t1] } :
          DBState).subscriptions.filter (fun x =>
        x.memberId == m && x.sportId == s && x.status == SubStatus.active)).length = 1) ∧
    (∀ ops : List Op, (execOps ops).subscriptions.Pairwise
      (fun a b => ¬(a.memberId = b.memberId ∧ a.sportId = b.sportId ∧
        a.status = SubStatus.active ∧ b.status = SubStatus.active))) := by
  constructor
  · intro st m s id1 id2 t1 t2 hno hid1
    have hnof := List.find?_eq_none.1 hno
    have hpairfalse : st.subscriptions.any (fun x => x.memberId == m && x.sportId == s) = false :=
      List.any_eq_false.2 (fun x hx => hnof x hx)
    have hno' : st.subscriptions.find? (fun sub => sub.memberId == m && sub.sportId == s) = none :=
      hno
    have hget1 : getSubscription
        { st with subscriptions := st.subscriptions ++ [freshSub m s id1 t1] } m s
        = some (freshSub m s id1 t1) := by
      simp [getSubscription, freshSub, hno']
    refine ⟨?_, ?_, ?_⟩
    · unfold subscribeMemberToSport subAdd freshSub
      rw [hno]
      simp [hid1, hpairfalse]
    · unfold subscribeMemberToSport
      rw [hget1]
      rfl
    · dsimp only
      rw [List.filter_append]
      have h1 : st.subscriptions.filter (fun x =>
          x.memberId == m && x.sportId == s && x.status == SubStatus.active) = [] := by
        rw [List.filter_eq_nil_iff]
        intro a ha hcontra
        apply hnof a ha
        simp only [Bool.and_eq_true] at hcontra ⊢
        tauto
      rw [h1]
      simp [freshSub]
  · intro ops
    refine ((execOps_subsOk ops).2).imp ?_
    intro a b hab hcontra
    exact hab (by unfold pairKey; rw [hcontra.1, hcontra.2.1])

/-- Witness for C2's first part: subscribing the pair `("m1", "s1")` twice on
the empty store. -/
theorem subscribe_twice_conflict_and_unique_witness :
    subscribeMemberToSport emptyState "m1" "s1" "sub1" 4 =
      (Except.ok (freshSub "m1" "s1" "sub1" 4),
       { emptyState with subscriptions := emptyState.subscriptions ++ [freshSub "m1" "s1" "sub1" 4] }) ∧
    subscribeMemberToSport
        { emptyState with subscriptions := emptyState.subscriptions ++ [freshSub "m1" "s1" "sub1" 4] }
        "m1" "s1" "sub2" 5 =
      (Except.error DBError.conflict,
       { emptyState with subscriptions := emptyState.subscriptions ++ [freshSub "m1" "s1" "sub1" 4] }) ∧
    (({ emptyState with subscriptions := emptyState.subscriptions ++ [freshSub "m1" "s1" "sub1" 4] } :
        DBState).subscriptions.filter (fun x =>
      x.memberId == "m1" && x.sportId == "s1" && x.status == SubStatus.active)).length = 1 :=
  subscribe_twice_conflict_and_unique.1 emptyState "m1" "s1" "sub1" "sub2" 4 5 rfl rfl

/-- The `sports` component of `getMemberWithSports` computed: sports looked up
through the member's active subscriptions, dropping lookups that return
absent (`filter(Boolean)`). -/
theorem getMemberWithSports_sports_eq (st : DBState) (m : String) (r : MemberWithSports)
    (h : getMemberWithSports st m = some r) :
    r.sports = ((getMemberSubscriptions st m).filter
        (fun sub => sub.status == SubStatus.active)).filterMap
        (fun sub => getSport st sub.sportId) := by
  unfold getMemberWithSports at h
  cases hm : getMember st m with
  | none =>
      rw [hm] at h
      exact absurd h (by simp)
  | some member =>
      rw [hm] at h
      dsimp only at h
      injection h with h
      rw [← h]

/-- The `memberCount` and `members` components of `getSportWithMembers`
computed. -/
theorem getSportWithMembers_fields_eq (st : DBState) (sid : String) (r : SportWithMembers)
    (h : getSportWithMembers st sid = some r) :
    r.memberCount = ((getSportSubscriptions st sid).filter
        (fun sub => sub.status == SubStatus.active)).length ∧
    r.members = ((getSportSubscriptions st sid).filter
        (fun sub => sub.status == SubStatus.active)).filterMap
        (fun sub => getMember st sub.memberId) := by
  unfold getSportWithMembers at h
  cases hs : getSport st sid with
  | none =>
      rw [hs] at h
      exact absurd h (by simp)
  | some sport =>
      rw [hs] at h
      dsimp only at h
      injection h with h
      rw [← h]
      exact ⟨rfl, rfl⟩

/-- C7: cancelling an existing *active* subscription succeeds, returns the row
with status `cancelled`, `updatedAt` bumped to now and every other field
unchanged, keeps the row in the store, and afterwards the sport is excluded
from `getMemberWithSports(m).sports`.  The `PairUnique` hypothesis is the
unique `by-member-sport` index invariant, which holds in every reachable
store. -/
theorem cancel_active_excluded (st : DBState) (m s : String) (sub : Subscription) (now : Nat)
    (hu : PairUnique st)
    (hfind : getSubscription st m s = some sub)
    (_hact : sub.status = SubStatus.active) :
    ∃ sub1 st1, cancelSubscription st m s now = (Except.ok sub1, st1) ∧
      sub1.status = SubStatus.cancelled ∧ sub1.updatedAt = now ∧
      sub1.id = sub.id ∧ sub1.memberId = sub.memberId ∧ sub1.sportId = sub.sportId ∧
      sub1.subscriptionDate = sub.subscriptionDate ∧ sub1.createdAt = sub.createdAt ∧
      sub1 ∈ st1.subscriptions ∧
      (∀ r sp, getMemberWithSports st1 m = some r → sp ∈ r.sports → sp.id ≠ s) := by
  have hmem := List.mem_of_find?_eq_some hfind
  have hpred := List.find?_some hfind
  rw [Bool.and_eq_true] at hpred
  have hsubm : sub.memberId = m := by simpa using hpred.1
  have hsubs : sub.sportId = s := by simpa using hpred.2
  refine ⟨{ sub with status := SubStatus.cancelled, updatedAt := now }, _,
    cancelSubscription_ok_elim st m s sub now hfind,
    rfl, rfl, rfl, rfl, rfl, rfl, rfl, ?_, ?_⟩
  · dsimp only
    refine List.mem_map.2 ⟨sub, hmem, ?_⟩
    rw [if_pos (by simp)]
  · intro r sp hr hsp hspid
    rw [getMemberWithSports_sports_eq _ m r hr] at hsp
    obtain ⟨x, hx, hgx⟩ := List.mem_filterMap.1 hsp
    rw [List.mem_filter] at hx
    obtain ⟨hx1, hxact⟩ := hx
    unfold getMemberSubscriptions at hx1
    rw [List.mem_filter] at hx1
    obtain ⟨hx2, hxm⟩ := hx1
    have hspx : sp.id = x.sportId := by simpa using List.find?_some hgx
    dsimp only at hx2
    obtain ⟨y, hy, hyx⟩ := List.mem_map.1 hx2
    by_cases hyid : (y.id == sub.id) = true
    · rw [if_pos hyid] at hyx
      rw [← hyx] at hxact
      simp at hxact
    · rw [if_neg hyid] at hyx
      rw [← hyx] at hxact hxm hspx
      have hym : y.memberId = m := by simpa using hxm
      have hys : y.sportId = s := by rw [← hspx]; exact hspid
      have hyne : y ≠ sub := fun he => hyid (by simp [he])
      have hPsymm : Symmetric (fun a b : Subscription => pairKey a ≠ pairKey b) :=
        fun a b hab => fun e => hab e.symm
      exact (hu.forall hPsymm hy hmem hyne)
        (by unfold pairKey; rw [hym, hys, hsubm, hsubs])

/-- A concrete *active* subscription row for the pair `("m1", "s1")`. -/
def subActive : Subscription :=
  { id := "sub1", memberId := "m1", sportId := "s1", subscriptionDate := 1,
    status := SubStatus.active, createdAt := 1, updatedAt := 1 }

/-- A store holding exactly the active row for `("m1", "s1")`. -/
def stWithActive : DBState :=
  { sports := [], members := [], subscriptions := [subActive] }

/-- Witness for C7 at the concrete store holding one active row. -/
theorem cancel_active_excluded_witness :
    ∃ sub1 st1, cancelSubscription stWithActive "m1" "s1" 9 = (Except.ok sub1, st1) ∧
      sub1.status = SubStatus.cancelled ∧ sub1.updatedAt = 9 ∧
      sub1.id = subActive.id ∧ sub1.memberId = subActive.memberId ∧
      sub1.sportId = subActive.sportId ∧
      sub1.subscriptionDate = subActive.subscriptionDate ∧
      sub1.createdAt = subActive.createdAt ∧
      sub1 ∈ st1.subscriptions ∧
      (∀ r sp, getMemberWithSports st1 "m1" = some r → sp ∈ r.sports → sp.id ≠ "s1") :=
  cancel_active_excluded stWithActive "m1" "s1" subActive 9
    (List.pairwise_singleton _ _) rfl rfl

/-- A sport with id `"s1"`. -/
def sportDangling : Sport :=
  { id := "s1", name := "Tennis", description := "Individual or doubles tennis",
    category := "Racquet Sports", maxMembers := none, createdAt := 0, updatedAt := 0 }

/-- An active subscription row whose `memberId` references no stored member. -/
def subDangling : Subscription :=
  { id := "subD", memberId := "ghost", sportId := "s1", subscriptionDate := 0,
    status := SubStatus.active, createdAt := 0, updatedAt := 0 }

/-- A store with a sport, no members, and one dangling active subscription. -/
def stDangling : DBState :=
  { sports := [sportDangling], members := [], subscriptions := [subDangling] }

/-- C10: for every stored sport, `getSportWithMembers(s).memberCount` is the
number of *active* subscription rows for `s` — counting rows whose `memberId`
no longer resolves — while the `members` list silently drops such dangling
references (and `getMemberWithSports(m).sports` likewise drops deleted
sports), so `memberCount` can exceed the length of `members`, as the dangling
store exhibits. -/
theorem sportWithMembers_count_dangling :
    (∀ st sid r, getSportWithMembers st sid = some r →
      r.memberCount = (st.subscriptions.filter (fun x =>
        x.status == SubStatus.active && x.sportId == sid)).length ∧
      r.members = (st.subscriptions.filter (fun x =>
        x.status == SubStatus.active && x.sportId == sid)).filterMap
        (fun x => getMember st x.memberId)) ∧
    (∀ st m r, getMemberWithSports st m = some r →
      r.sports = (st.subscriptions.filter (fun x =>
        x.status == SubStatus.active && x.memberId == m)).filterMap
        (fun x => getSport st x.sportId)) ∧
    (∃ r, getSportWithMembers stDangling "s1" = some r ∧
      r.memberCount = 1 ∧ r.members = [] ∧ r.members.length < r.memberCount) := by
  refine ⟨?_, ?_, ?_⟩
  · intro st sid r hr
    obtain ⟨hc, hm⟩ := getSportWithMembers_fields_eq st sid r hr
    unfold getSportSubscriptions at hc hm
    rw [List.filter_filter] at hc hm
    exact ⟨hc, hm⟩
  · intro st m r hr
    have hs := getMemberWithSports_sports_eq st m r hr
    unfold getMemberSubscriptions at hs
    rw [List.filter_filter] at hs
    exact hs
  · exact ⟨⟨sportDangling, [], [subDangling], 1⟩, rfl, rfl, rfl, by decide⟩

/-- Witness for C10 at the dangling store: the count is 1 though no member
resolves. -/
theorem sportWithMembers_count_dangling_witness :
    (⟨sportDangling, [], [subDangling], 1⟩ : SportWithMembers).memberCount
      = (stDangling.subscriptions.filter (fun x =>
          x.status == SubStatus.active && x.sportId == "s1")).length ∧
    (⟨sportDangling, [], [subDangling], 1⟩ : SportWithMembers).members
      = (stDangling.subscriptions.filter (fun x =>
          x.status == SubStatus.active && x.sportId == "s1")).filterMap
          (fun x => getMember stDangling x.memberId) :=
  sportWithMembers_count_dangling.1 stDangling "s1" ⟨sportDangling, [], [subDangling], 1⟩ rfl

end SportingClub
